import Mathlib

/-!
# Verification of the thinknet relay hub (backend/src)

Shallow embedding of the connection registry (`backend/src/api/state.rs`),
the WebSocket session loops (`backend/src/routes/websocket.rs`) and the
external bus relay (`backend/src/services/redis_service.rs`), together with
proofs of the specification claims about them.

The Rust `HashMap<String, V>` registries are modelled as association lists
with at most one binding per key: `insert` removes any prior binding for the
key, `remove` erases every binding for the key, `get` returns the first
binding.  Only lookup, overwrite-insert and remove are used by the code, so
this model is observationally faithful to `std::collections::HashMap`.
-/

set_option autoImplicit false

namespace Thinknet

universe u

/-- Lookup in an association-list map, mirroring `HashMap::get`. -/
def mapGet {α : Type u} (m : List (String × α)) (k : String) : Option α :=
  match m with
  | [] => none
  | (k₂, v) :: t => if k₂ = k then some v else mapGet t k

/-- Erase every binding of key `k`, mirroring `HashMap::remove` (which leaves
at most-one-binding maps with no binding for `k`). -/
def mapErase {α : Type u} (m : List (String × α)) (k : String) : List (String × α) :=
  match m with
  | [] => []
  | (k₂, v) :: t => if k₂ = k then mapErase t k else (k₂, v) :: mapErase t k

/-- Overwrite-insert, mirroring `HashMap::insert`: any prior binding for the
key is replaced by the new one. -/
def mapInsert {α : Type u} (m : List (String × α)) (k : String) (v : α) :
    List (String × α) :=
  (k, v) :: mapErase m k

@[simp] theorem mapGet_nil {α : Type u} (k : String) :
    mapGet ([] : List (String × α)) k = none := rfl

@[simp] theorem mapGet_cons {α : Type u} (k₂ : String) (v : α)
    (t : List (String × α)) (k : String) :
    mapGet ((k₂, v) :: t) k = if k₂ = k then some v else mapGet t k := rfl

theorem mapGet_mapErase_self {α : Type u} (m : List (String × α)) (k : String) :
    mapGet (mapErase m k) k = none := by
  induction m with
  | nil => rfl
  | cons p t ih =>
    obtain ⟨k₂, v⟩ := p
    by_cases h : k₂ = k
    · simp [mapErase, h, ih]
    · simp [mapErase, h, ih]

theorem mapGet_mapErase_ne {α : Type u} (m : List (String × α)) (k k₂ : String)
    (h : k₂ ≠ k) : mapGet (mapErase m k) k₂ = mapGet m k₂ :=
  by
  induction m with
  | nil => rfl
  | cons p t ih =>
    obtain ⟨k₃, v⟩ := p
    by_cases h₃ : k₃ = k
    · subst h₃
      have : ¬ k₃ = k₂ := fun hc => h (hc ▸ rfl)
      simp [mapErase, this, ih]
    · by_cases h₄ : k₃ = k₂ <;> simp [mapErase, h₃, h₄, h, ih]

theorem mapErase_idem {α : Type u} (m : List (String × α)) (k : String) :
    mapErase (mapErase m k) k = mapErase m k := by
  induction m with
  | nil => rfl
  | cons p t ih =>
    obtain ⟨k₂, v⟩ := p
    by_cases h : k₂ = k <;> simp [mapErase, h, ih]

theorem mapErase_of_get_none {α : Type u} (m : List (String × α)) (k : String)
    (h : mapGet m k = none) : mapErase m k = m := by
  induction m with
  | nil => rfl
  | cons p t ih =>
    obtain ⟨k₂, v⟩ := p
    by_cases h₂ : k₂ = k
    · simp [mapGet, h₂] at h
    · simp [mapGet, h₂] at h
      simp [mapErase, h₂, ih h]

theorem not_mem_mapErase {α : Type u} (m : List (String × α)) (k : String)
    (v : α) : (k, v) ∉ mapErase m k := by
  induction m with
  | nil => simp [mapErase]
  | cons p t ih =>
    obtain ⟨k₂, w⟩ := p
    by_cases h : k₂ = k
    · simpa [mapErase, h] using ih
    · simp [mapErase, h]
      exact ⟨fun hk _ => h hk.symm, ih⟩

@[simp] theorem mapGet_mapInsert_self {α : Type u} (m : List (String × α))
    (k : String) (v : α) : mapGet (mapInsert m k v) k = some v := by
  simp [mapInsert, mapGet]

theorem mapGet_mapInsert_ne {α : Type u} (m : List (String × α))
    (k k₂ : String) (v : α) (h : k₂ ≠ k) :
    mapGet (mapInsert m k v) k₂ = mapGet m k₂ := by
  have : ¬ k = k₂ := fun hc => h (hc ▸ rfl)
  simp [mapInsert, mapGet, this, mapGet_mapErase_ne m k k₂ h]

/-! ## The message envelope (`redis_service.rs`, struct `RedisMessage`) -/

/-- `RedisMessage`: the envelope relayed from the external bus to WebSocket
clients — the channel the message came from plus the opaque payload. -/
structure RedisMessage where
  channel : String
  data : String
deriving DecidableEq, Repr

/-! ## The connection registry (`api/state.rs`, `ConnectionManager`)

The two `Mutex<HashMap<..>>` fields of `ConnectionManager` are the mutable
state the registry methods act on; each method is embedded as a state
transformer.  The value type of the `connections` map is an mpsc sender in
Rust — opaque here, hence the type parameter `σ`. -/

structure ConnState (σ : Type) where
  subscriptions : List (String × String)
  connections : List (String × σ)
deriving DecidableEq, Repr

namespace ConnectionManager

variable {σ : Type}

/-- `ConnectionManager::broadcast`: the envelope it publishes on the
broadcast channel for a given diagnostic message. -/
def broadcastMsg (message : String) : RedisMessage :=
  { channel := "broadcast", data := message }

/-- `ConnectionManager::subscribe`: `subs.insert(connection_id, channel_name)`. -/
def subscribe (s : ConnState σ) (connection_id channel_name : String) :
    ConnState σ :=
  { s with subscriptions := mapInsert s.subscriptions connection_id channel_name }

/-- `ConnectionManager::unsubscribe`: `subs.remove(connection_id)`. -/
def unsubscribe (s : ConnState σ) (connection_id : String) : ConnState σ :=
  { s with subscriptions := mapErase s.subscriptions connection_id }

/-- `ConnectionManager::remove_connection`: `unsubscribe` then
`connections.remove(connection_id)`. -/
def remove_connection (s : ConnState σ) (connection_id : String) : ConnState σ :=
  let s₁ := unsubscribe s connection_id
  { s₁ with connections := mapErase s₁.connections connection_id }

end ConnectionManager

/-! ## JSON serialization of the envelope

`handle_socket` serializes the envelope with `serde_json::to_string`, whose
output for `RedisMessage` (two string fields, in declaration order, compact
form) is `{"channel":<json string>,"data":<json string>}`.  The embedding
below reproduces serde_json's string escaping: `"` and `\` are escaped, and
control characters below U+0020 become the short escapes or a `\u00XX`
escape.  On a struct of two `String`s, `serde_json::to_string` cannot fail,
so the serializer is total here. -/

/-- One hexadecimal digit as serde_json prints it (lowercase). -/
def hexDigit (n : Nat) : Char :=
  if n < 10 then Char.ofNat (48 + n) else Char.ofNat (87 + n)

/-- serde_json escaping for one character inside a JSON string. -/
def jsonEscapeChar (c : Char) : String :=
  if c = '"' then "\\\""
  else if c = '\\' then "\\\\"
  else if c.toNat < 0x20 then
    if c = '\x08' then "\\b"
    else if c = '\t' then "\\t"
    else if c = '\n' then "\\n"
    else if c = '\x0c' then "\\f"
    else if c = '\r' then "\\r"
    else String.mk ['\\', 'u', '0', '0', hexDigit (c.toNat / 16), hexDigit (c.toNat % 16)]
  else String.singleton c

/-- A JSON string literal for `s`, as serde_json prints it. -/
def jsonString (s : String) : String :=
  "\"" ++ String.join (s.data.map jsonEscapeChar) ++ "\""

/-- `serde_json::to_string(&redis_msg)`: the compact JSON object with the
`channel` field first and the `data` field second. -/
def serializeRedisMessage (m : RedisMessage) : String :=
  "\x7b\"channel\":" ++ jsonString m.channel ++ ",\"data\":" ++ jsonString m.data ++ "\x7d"

/-! ## The Connection Session write loop (`routes/websocket.rs`)

The spawned sender task's core branch receives a `RedisMessage` from the
global broadcast channel, checks the subscriptions map, and forwards the
serialized envelope only on an exact channel match. -/

/-- The `is_subscribed` check of `handle_socket`:
`subs.get(&id).map(|c| c == &msg.channel).unwrap_or(false)`. -/
def is_subscribed (subs : List (String × String)) (connection_id : String)
    (redis_msg : RedisMessage) : Bool :=
  ((mapGet subs connection_id).map (fun sub_channel => sub_channel == redis_msg.channel)).getD false

/-- What the write loop does with one broadcast envelope. -/
inductive WriteOutcome where
  | forwarded (serialized_msg : String)
  | notForwarded
deriving DecidableEq, Repr

/-- One iteration of the write loop's broadcast branch: forward the
serialized envelope iff `is_subscribed`. -/
def writeStep (subs : List (String × String)) (connection_id : String)
    (redis_msg : RedisMessage) : WriteOutcome :=
  if is_subscribed subs connection_id redis_msg then
    .forwarded (serializeRedisMessage redis_msg)
  else
    .notForwarded

/-! ## The Connection Session read loop (`routes/websocket.rs`)

One iteration of the receiver loop handles one `ws_receiver.next()` result.
Parsing is `serde_json::from_str::<ClientCommand>` — an external library
call, abstracted as a parameter `parse` of the step function; the control
flow below depends only on its success or failure, exactly as in the code. -/

/-- The `ClientCommand` struct deserialized from a client text frame. -/
structure ClientCommand where
  command_type : String
  channel : String
deriving DecidableEq, Repr

/-- A WebSocket frame as the receiver loop distinguishes them:
text, close, or any other (binary/ping/pong) frame. -/
inductive WsFrame where
  | text (t : String)
  | close
  | other
deriving DecidableEq, Repr

/-- One `ws_receiver.next()` result: a frame, or a transport error. -/
inductive ReadEvent where
  | frame (f : WsFrame)
  | transportError (e : String)
deriving DecidableEq, Repr

/-- Whether the loop continues with the next iteration or exits. -/
inductive LoopControl where
  | next
  | exit
deriving DecidableEq, Repr

/-- One iteration of `handle_socket`'s receiver loop: the new registry state
and whether the loop continues.  The SUBSCRIBE arm prepends `"ws_channel:"`
to the client-sent channel before calling `ConnectionManager::subscribe`. -/
def readStep {σ : Type} (parse : String → Except String ClientCommand)
    (s : ConnState σ) (connection_id : String) (ev : ReadEvent) :
    ConnState σ × LoopControl :=
  match ev with
  | .transportError _ => (s, .exit)
  | .frame .close => (s, .exit)
  | .frame .other => (s, .next)
  | .frame (.text t) =>
    match parse t with
    | .error _ => (s, .next)
    | .ok cmd =>
      if cmd.command_type = "SUBSCRIBE" then
        let full_channel_name := "ws_channel:" ++ cmd.channel
        (ConnectionManager.subscribe s connection_id full_channel_name, .next)
      else if cmd.command_type = "UNSUBSCRIBE" then
        (ConnectionManager.unsubscribe s connection_id, .next)
      else
        (s, .next)

/-! ## The external bus relay (`services/redis_service.rs`) -/

/-- Result of one `try_connect_and_subscribe` call as `start_redis_listener`
sees it: clean return, or an error (connect, subscribe, or payload-channel
failure bubbled up with `?`). -/
inductive RelayOutcome where
  | ok
  | err (e : String)
deriving DecidableEq, Repr

/-- What the `start_redis_listener` loop body does after one
`try_connect_and_subscribe` call.  `exitLoop` is in the type so that
non-termination is expressible; the code never produces it. -/
inductive RelayAction where
  | retryAfterDelay (secs : Nat)
  | retryImmediately
  | exitLoop
deriving DecidableEq, Repr

/-- One iteration of the `loop` in `start_redis_listener`: `Ok` logs and
retries at once; `Err` sleeps 5 seconds and retries.  No arm breaks or
returns. -/
def listenerStep (outcome : RelayOutcome) : RelayAction :=
  match outcome with
  | .ok => .retryImmediately
  | .err _ => .retryAfterDelay 5

instance {ε α : Type u} [DecidableEq ε] [DecidableEq α] : DecidableEq (Except ε α)
  | .error a, .error b =>
    if h : a = b then .isTrue (by rw [h])
    else .isFalse (by intro hc; cases hc; exact h rfl)
  | .error _, .ok _ => .isFalse (by intro hc; cases hc)
  | .ok _, .error _ => .isFalse (by intro hc; cases hc)
  | .ok a, .ok b =>
    if h : a = b then .isTrue (by rw [h])
    else .isFalse (by intro hc; cases hc; exact h rfl)

/-- One external pub/sub message as the consumption loop sees it: the origin
channel name and the result of `msg.get_payload()`. -/
structure ExternalMsg where
  channel_name : String
  payloadResult : Except String String
deriving DecidableEq, Repr

/-- What one iteration of `try_connect_and_subscribe`'s `while let` loop does
with a message. -/
inductive ConsumeAction where
  | skipped
  | published (envelope : RedisMessage) (hadSubscribers : Bool)
deriving DecidableEq, Repr

/-- One iteration of the message-consumption loop: a payload-extraction
failure logs and `continue`s; otherwise the wrapped envelope is sent on the
broadcast channel and a send error (no subscribers) is ignored.  Neither
case leaves the loop. -/
def consumeStep (msg : ExternalMsg) (hasSubscribers : Bool) :
    ConsumeAction × LoopControl :=
  match msg.payloadResult with
  | .error _ => (.skipped, .next)
  | .ok payload =>
    let wrapped_message : RedisMessage :=
      { channel := msg.channel_name, data := payload }
    (.published wrapped_message hasSubscribers, .next)

/-! ## Helper lemmas -/

theorem mapGet_mem {α : Type u} (m : List (String × α)) (k : String) (v : α)
    (h : mapGet m k = some v) : (k, v) ∈ m := by
  induction m with
  | nil => simp [mapGet] at h
  | cons p t ih =>
    obtain ⟨k₂, w⟩ := p
    by_cases hk : k₂ = k
    · subst hk
      simp [mapGet] at h
      simp [h]
    · simp [mapGet, hk] at h
      simp [ih h]

theorem ws_channel_append_ne_broadcast (r : String) :
    "ws_channel:" ++ r ≠ "broadcast" := by
  intro h
  have h₂ := congrArg String.length h
  rw [String.length_append] at h₂
  have h₃ : (11 : Nat) + r.length = 9 := h₂
  omega

/-! ## The claims -/

/-- C4: `ConnectionManager::subscribe` unconditionally overwrites the stored
channel for the given connection id (creating the entry when absent), leaves
every other id's subscription unchanged, leaves the connections map
untouched, and, being a total function, never fails. -/
theorem subscribe_overwrites {σ : Type} (s : ConnState σ) (id ch : String) :
    mapGet (ConnectionManager.subscribe s id ch).subscriptions id = some ch ∧
    (∀ id₂, id₂ ≠ id →
      mapGet (ConnectionManager.subscribe s id ch).subscriptions id₂ =
        mapGet s.subscriptions id₂) ∧
    (ConnectionManager.subscribe s id ch).connections = s.connections := by
  refine ⟨?_, ?_, rfl⟩
  · simp [ConnectionManager.subscribe]
  · intro id₂ h
    simpa [ConnectionManager.subscribe] using
      mapGet_mapInsert_ne s.subscriptions id id₂ ch h

theorem subscribe_overwrites_witness :
    mapGet (ConnectionManager.subscribe
        (⟨[("c1", "ws_channel:job:1")], []⟩ : ConnState Unit) "c1"
        "ws_channel:job:2").subscriptions "c1" = some "ws_channel:job:2" ∧
    mapGet (ConnectionManager.subscribe
        (⟨[("c1", "ws_channel:job:1")], []⟩ : ConnState Unit) "c1"
        "ws_channel:job:2").subscriptions "c2" =
      mapGet [("c1", "ws_channel:job:1")] "c2" :=
  ⟨(subscribe_overwrites (⟨[("c1", "ws_channel:job:1")], []⟩ : ConnState Unit)
      "c1" "ws_channel:job:2").1,
   (subscribe_overwrites (⟨[("c1", "ws_channel:job:1")], []⟩ : ConnState Unit)
      "c1" "ws_channel:job:2").2.1 "c2" (by decide)⟩

/-- C5: `ConnectionManager::remove_connection` is exactly `unsubscribe`
followed by erasing the id from the connections map; afterwards the
subscription lookup for the id yields `none` and neither map has any entry
for the id. -/
theorem remove_connection_spec {σ : Type} (s : ConnState σ) (id : String) :
    ConnectionManager.remove_connection s id =
      { ConnectionManager.unsubscribe s id with
          connections :=
            mapErase (ConnectionManager.unsubscribe s id).connections id } ∧
    mapGet (ConnectionManager.remove_connection s id).subscriptions id = none ∧
    mapGet (ConnectionManager.remove_connection s id).connections id = none ∧
    (∀ v, (id, v) ∉ (ConnectionManager.remove_connection s id).subscriptions) ∧
    (∀ v : σ, (id, v) ∉ (ConnectionManager.remove_connection s id).connections) := by
  refine ⟨rfl, ?_, ?_, ?_, ?_⟩
  · simpa [ConnectionManager.remove_connection, ConnectionManager.unsubscribe]
      using mapGet_mapErase_self s.subscriptions id
  · simpa [ConnectionManager.remove_connection, ConnectionManager.unsubscribe]
      using mapGet_mapErase_self s.connections id
  · intro v
    simpa [ConnectionManager.remove_connection, ConnectionManager.unsubscribe]
      using not_mem_mapErase s.subscriptions id v
  · intro v
    simpa [ConnectionManager.remove_connection, ConnectionManager.unsubscribe]
      using not_mem_mapErase s.connections id v

theorem remove_connection_spec_witness :
    mapGet (ConnectionManager.remove_connection
        (⟨[("c1", "ws_channel:job:1")], [("c1", ())]⟩ : ConnState Unit)
        "c1").subscriptions "c1" = none ∧
    ("c1", "ws_channel:job:1") ∉ (ConnectionManager.remove_connection
        (⟨[("c1", "ws_channel:job:1")], [("c1", ())]⟩ : ConnState Unit)
        "c1").subscriptions :=
  ⟨(remove_connection_spec
      (⟨[("c1", "ws_channel:job:1")], [("c1", ())]⟩ : ConnState Unit) "c1").2.1,
   (remove_connection_spec
      (⟨[("c1", "ws_channel:job:1")], [("c1", ())]⟩ : ConnState Unit) "c1").2.2.2.1
     "ws_channel:job:1"⟩

/-- C10: `unsubscribe` and `remove_connection` are idempotent and total:
applying either twice equals applying it once, and applying either to an id
absent from both maps leaves the state unchanged (both are total functions,
so they complete without error). -/
theorem unsubscribe_remove_idempotent {σ : Type} (s : ConnState σ) (id : String) :
    ConnectionManager.unsubscribe (ConnectionManager.unsubscribe s id) id =
      ConnectionManager.unsubscribe s id ∧
    ConnectionManager.remove_connection
        (ConnectionManager.remove_connection s id) id =
      ConnectionManager.remove_connection s id ∧
    (mapGet s.subscriptions id = none → ConnectionManager.unsubscribe s id = s) ∧
    (mapGet s.subscriptions id = none → mapGet s.connections id = none →
      ConnectionManager.remove_connection s id = s) := by
  obtain ⟨subs, conns⟩ := s
  refine ⟨?_, ?_, ?_, ?_⟩
  · simp [ConnectionManager.unsubscribe, mapErase_idem]
  · simp [ConnectionManager.remove_connection, ConnectionManager.unsubscribe,
      mapErase_idem]
  · intro h
    simp [ConnectionManager.unsubscribe, mapErase_of_get_none _ _ h]
  · intro h₁ h₂
    simp [ConnectionManager.remove_connection, ConnectionManager.unsubscribe,
      mapErase_of_get_none _ _ h₁, mapErase_of_get_none _ _ h₂]

theorem unsubscribe_remove_idempotent_witness :
    ConnectionManager.unsubscribe
        (⟨[("c2", "ws_channel:job:1")], []⟩ : ConnState Unit) "c1" =
      (⟨[("c2", "ws_channel:job:1")], []⟩ : ConnState Unit) ∧
    ConnectionManager.remove_connection
        (⟨[("c2", "ws_channel:job:1")], []⟩ : ConnState Unit) "c1" =
      (⟨[("c2", "ws_channel:job:1")], []⟩ : ConnState Unit) :=
  ⟨(unsubscribe_remove_idempotent
      (⟨[("c2", "ws_channel:job:1")], []⟩ : ConnState Unit) "c1").2.2.1 (by decide),
   (unsubscribe_remove_idempotent
      (⟨[("c2", "ws_channel:job:1")], []⟩ : ConnState Unit) "c1").2.2.2 (by decide)
     (by decide)⟩

/-- C1: one write-loop iteration forwards the serialized envelope to the
client iff the registry's stored subscription for the connection id is
string-equal to the envelope's channel; a connection with no entry in the
subscriptions map is never forwarded a bus message. -/
theorem write_loop_filter (subs : List (String × String)) (connection_id : String)
    (redis_msg : RedisMessage) :
    (writeStep subs connection_id redis_msg =
        .forwarded (serializeRedisMessage redis_msg) ↔
      mapGet subs connection_id = some redis_msg.channel) ∧
    (mapGet subs connection_id = none →
      writeStep subs connection_id redis_msg = .notForwarded) := by
  constructor
  · unfold writeStep is_subscribed
    cases h : mapGet subs connection_id with
    | none => simp
    | some c =>
      by_cases hc : c = redis_msg.channel
      · simp [hc]
      · simp [hc]
  · intro h
    simp [writeStep, is_subscribed, h]

theorem write_loop_filter_witness :
    writeStep [("c1", "ws_channel:job:1")] "c1"
        ⟨"ws_channel:job:1", "log line"⟩ =
      .forwarded (serializeRedisMessage ⟨"ws_channel:job:1", "log line"⟩) ∧
    writeStep [] "c1" ⟨"ws_channel:job:1", "log line"⟩ = .notForwarded :=
  ⟨(write_loop_filter [("c1", "ws_channel:job:1")] "c1"
      ⟨"ws_channel:job:1", "log line"⟩).1.mpr (by decide),
   (write_loop_filter [] "c1" ⟨"ws_channel:job:1", "log line"⟩).2 rfl⟩

/-- A parse result standing for serde_json succeeding on the client frame
`{"type":"SUBSCRIBE","channel":"job:42"}`. -/
def parseSubscribeJob42 : String → Except String ClientCommand :=
  fun _ => .ok { command_type := "SUBSCRIBE", channel := "job:42" }

/-- C2 counterexample: on a well-formed SUBSCRIBE command for channel
`"job:42"`, the handler does not call `subscribe` with `"job:42"`: the stored
subscription is `"ws_channel:job:42"`, so the claim's "no translation" is
false. -/
theorem subscribe_translates_channel :
    mapGet ((readStep parseSubscribeJob42 (⟨[], []⟩ : ConnState Unit) "c1"
        (.frame (.text "\x7b\"type\":\"SUBSCRIBE\",\"channel\":\"job:42\"\x7d"))).1).subscriptions
      "c1" = some "ws_channel:job:42" ∧
    mapGet ((readStep parseSubscribeJob42 (⟨[], []⟩ : ConnState Unit) "c1"
        (.frame (.text "\x7b\"type\":\"SUBSCRIBE\",\"channel\":\"job:42\"\x7d"))).1).subscriptions
      "c1" ≠ some "job:42" := by
  constructor
  · rfl
  · decide

/-- C2 (amended): a well-formed SUBSCRIBE command with channel `c` causes
`subscribe(connection_id, "ws_channel:" ++ c)` — the handler prepends the
fixed `"ws_channel:"` prefix before storing, so the stored subscription
carries the bus's published (prefixed) channel name rather than the raw
client string. -/
theorem subscribe_command_applies_prefixed {σ : Type}
    (parse : String → Except String ClientCommand) (s : ConnState σ)
    (connection_id t : String) (cmd : ClientCommand)
    (hp : parse t = .ok cmd) (hs : cmd.command_type = "SUBSCRIBE") :
    readStep parse s connection_id (.frame (.text t)) =
      (ConnectionManager.subscribe s connection_id ("ws_channel:" ++ cmd.channel),
        .next) ∧
    mapGet (ConnectionManager.subscribe s connection_id
        ("ws_channel:" ++ cmd.channel)).subscriptions connection_id =
      some ("ws_channel:" ++ cmd.channel) := by
  constructor
  · simp [readStep, hp, hs]
  · simp [ConnectionManager.subscribe]

theorem subscribe_command_applies_prefixed_witness :
    readStep parseSubscribeJob42 (⟨[], []⟩ : ConnState Unit) "c1"
        (.frame (.text "\x7b\"type\":\"SUBSCRIBE\",\"channel\":\"job:42\"\x7d")) =
      (ConnectionManager.subscribe (⟨[], []⟩ : ConnState Unit) "c1"
        "ws_channel:job:42", .next) :=
  (subscribe_command_applies_prefixed parseSubscribeJob42
    (⟨[], []⟩ : ConnState Unit) "c1"
    "\x7b\"type\":\"SUBSCRIBE\",\"channel\":\"job:42\"\x7d"
    { command_type := "SUBSCRIBE", channel := "job:42" } rfl rfl).1

/-- C6: a text frame that fails to parse, and a parsed command of unknown
type, leave the registry state unchanged and continue the loop; the read
loop exits only on a close frame or a transport error. -/
theorem read_loop_robust {σ : Type} (parse : String → Except String ClientCommand)
    (s : ConnState σ) (connection_id : String) (ev : ReadEvent) :
    (∀ t e, ev = .frame (.text t) → parse t = .error e →
      readStep parse s connection_id ev = (s, .next)) ∧
    (∀ t cmd, ev = .frame (.text t) → parse t = .ok cmd →
      cmd.command_type ≠ "SUBSCRIBE" → cmd.command_type ≠ "UNSUBSCRIBE" →
      readStep parse s connection_id ev = (s, .next)) ∧
    ((readStep parse s connection_id ev).2 = .exit ↔
      ev = .frame .close ∨ ∃ e, ev = .transportError e) := by
  refine ⟨?_, ?_, ?_⟩
  · intro t e hev hp
    subst hev
    simp [readStep, hp]
  · intro t cmd hev hp h₁ h₂
    subst hev
    simp [readStep, hp, h₁, h₂]
  · cases ev with
    | transportError e => simp [readStep]
    | frame f =>
      cases f with
      | close => simp [readStep]
      | other => simp [readStep]
      | text t =>
        cases hp : parse t with
        | error e => simp [readStep, hp]
        | ok cmd =>
          by_cases h₁ : cmd.command_type = "SUBSCRIBE"
          · simp [readStep, hp, h₁]
          · by_cases h₂ : cmd.command_type = "UNSUBSCRIBE" <;>
              simp [readStep, hp, h₁, h₂]

theorem read_loop_robust_witness :
    readStep (fun _ => .error "invalid type: map")
        (⟨[("c1", "ws_channel:job:1")], []⟩ : ConnState Unit) "c1"
        (.frame (.text "not json")) =
      ((⟨[("c1", "ws_channel:job:1")], []⟩ : ConnState Unit), .next) ∧
    readStep (fun _ => .ok { command_type := "PING", channel := "" })
        (⟨[("c1", "ws_channel:job:1")], []⟩ : ConnState Unit) "c1"
        (.frame (.text "\x7b\"type\":\"PING\",\"channel\":\"\"\x7d")) =
      ((⟨[("c1", "ws_channel:job:1")], []⟩ : ConnState Unit), .next) ∧
    ((readStep (fun _ => .error "eof")
        (⟨[("c1", "ws_channel:job:1")], []⟩ : ConnState Unit) "c1"
        (.frame .close)).2 = .exit) :=
  ⟨(read_loop_robust (fun _ => .error "invalid type: map")
      (⟨[("c1", "ws_channel:job:1")], []⟩ : ConnState Unit) "c1"
      (.frame (.text "not json"))).1 "not json" "invalid type: map" rfl rfl,
   (read_loop_robust (fun _ => .ok { command_type := "PING", channel := "" })
      (⟨[("c1", "ws_channel:job:1")], []⟩ : ConnState Unit) "c1"
      (.frame (.text "\x7b\"type\":\"PING\",\"channel\":\"\"\x7d"))).2.1
     "\x7b\"type\":\"PING\",\"channel\":\"\"\x7d"
     { command_type := "PING", channel := "" } rfl rfl (by decide) (by decide),
   (read_loop_robust (fun _ => .error "eof")
      (⟨[("c1", "ws_channel:job:1")], []⟩ : ConnState Unit) "c1"
      (.frame .close)).2.2.mpr (Or.inl rfl)⟩

/-- C3: the `start_redis_listener` loop never exits: every outcome of
`try_connect_and_subscribe` leads to a retry; a failure retries after the
fixed 5-second delay, and a clean stream end retries as well instead of
ending the loop. -/
theorem listener_retries_forever (outcome : RelayOutcome) :
    listenerStep outcome ≠ .exitLoop ∧
    (∀ e, listenerStep (.err e) = .retryAfterDelay 5) ∧
    listenerStep .ok = .retryImmediately := by
  refine ⟨?_, fun e => rfl, rfl⟩
  cases outcome <;> simp [listenerStep]

theorem listener_retries_forever_witness :
    listenerStep (.err "Connection refused (os error 111)") =
      .retryAfterDelay 5 ∧
    listenerStep .ok ≠ .exitLoop :=
  ⟨(listener_retries_forever (.err "Connection refused (os error 111)")).2.1
     "Connection refused (os error 111)",
   (listener_retries_forever .ok).1⟩

/-- C7: one iteration of the relay's message-consumption loop continues in
every case: a payload-extraction failure is skipped, and a broadcast send
with no subscribers (send error ignored) still publishes and continues —
neither condition ends the loop. -/
theorem consume_loop_robust (msg : ExternalMsg) (hasSubscribers : Bool) :
    (∀ e, msg.payloadResult = .error e →
      consumeStep msg hasSubscribers = (.skipped, .next)) ∧
    (∀ p, msg.payloadResult = .ok p →
      consumeStep msg false =
        (.published { channel := msg.channel_name, data := p } false, .next)) ∧
    (consumeStep msg hasSubscribers).2 = .next := by
  refine ⟨?_, ?_, ?_⟩
  · intro e he
    simp [consumeStep, he]
  · intro p hp
    simp [consumeStep, hp]
  · cases hp : msg.payloadResult <;> simp [consumeStep, hp]

theorem consume_loop_robust_witness :
    consumeStep ⟨"ws_channel:job:1", .error "Response type not string compatible."⟩
        true = (.skipped, .next) ∧
    consumeStep ⟨"ws_channel:job:1", .ok "\x7b\"status\":\"ok\"\x7d"⟩ false =
      (.published ⟨"ws_channel:job:1", "\x7b\"status\":\"ok\"\x7d"⟩ false, .next) :=
  ⟨(consume_loop_robust
      ⟨"ws_channel:job:1", .error "Response type not string compatible."⟩ true).1
     "Response type not string compatible." rfl,
   (consume_loop_robust
      ⟨"ws_channel:job:1", .ok "\x7b\"status\":\"ok\"\x7d"⟩ false).2.1
     "\x7b\"status\":\"ok\"\x7d" rfl⟩

/-- C8: the envelope the relay publishes carries the exact origin channel
name and the payload verbatim, and a subscribed client receives exactly that
envelope serialized as the JSON object with the `channel` field and the
`data` field holding the payload unchanged. -/
theorem relay_passthrough_verbatim (msg : ExternalMsg) (p : String) (hs : Bool)
    (hp : msg.payloadResult = .ok p) :
    (consumeStep msg hs).1 =
      .published { channel := msg.channel_name, data := p } hs ∧
    (∀ subs connection_id, mapGet subs connection_id = some msg.channel_name →
      writeStep subs connection_id { channel := msg.channel_name, data := p } =
        .forwarded (serializeRedisMessage { channel := msg.channel_name, data := p })) ∧
    serializeRedisMessage { channel := msg.channel_name, data := p } =
      "\x7b\"channel\":" ++ jsonString msg.channel_name ++ ",\"data\":" ++
        jsonString p ++ "\x7d" := by
  refine ⟨?_, ?_, rfl⟩
  · simp [consumeStep, hp]
  · intro subs connection_id hg
    simp [writeStep, is_subscribed, hg]

theorem relay_passthrough_verbatim_witness :
    (consumeStep ⟨"ws_channel:job:7", .ok "\x7b\"line\":1\x7d"⟩ true).1 =
      .published ⟨"ws_channel:job:7", "\x7b\"line\":1\x7d"⟩ true ∧
    writeStep [("c1", "ws_channel:job:7")] "c1"
        ⟨"ws_channel:job:7", "\x7b\"line\":1\x7d"⟩ =
      .forwarded (serializeRedisMessage ⟨"ws_channel:job:7", "\x7b\"line\":1\x7d"⟩) :=
  ⟨(relay_passthrough_verbatim ⟨"ws_channel:job:7", .ok "\x7b\"line\":1\x7d"⟩
      "\x7b\"line\":1\x7d" true rfl).1,
   (relay_passthrough_verbatim ⟨"ws_channel:job:7", .ok "\x7b\"line\":1\x7d"⟩
      "\x7b\"line\":1\x7d" true rfl).2.1 [("c1", "ws_channel:job:7")] "c1"
     (by decide)⟩

/-- C9: every subscription the SUBSCRIBE handler stores begins with
`"ws_channel:"`, while `ConnectionManager::broadcast` publishes envelopes
whose channel is the literal `"broadcast"`; hence on any subscriptions map
whose values all carry the `"ws_channel:"` prefix, the write loop's equality
filter never forwards a broadcast-envelope to any connection. -/
theorem broadcast_never_forwarded {σ : Type}
    (parse : String → Except String ClientCommand) (s : ConnState σ)
    (connection_id t : String) (cmd : ClientCommand) (m : String)
    (hp : parse t = .ok cmd) (hs : cmd.command_type = "SUBSCRIBE") :
    mapGet ((readStep parse s connection_id
        (.frame (.text t))).1).subscriptions connection_id =
      some ("ws_channel:" ++ cmd.channel) ∧
    (ConnectionManager.broadcastMsg m).channel = "broadcast" ∧
    (∀ subs : List (String × String),
      (∀ q ∈ subs, ∃ r, q.2 = "ws_channel:" ++ r) →
      ∀ id₂, writeStep subs id₂ (ConnectionManager.broadcastMsg m) =
        .notForwarded) := by
  refine ⟨?_, rfl, ?_⟩
  · simp [readStep, hp, hs, ConnectionManager.subscribe]
  · intro subs hpref id₂
    unfold writeStep is_subscribed
    cases hg : mapGet subs id₂ with
    | none => simp
    | some v =>
      obtain ⟨r, hr⟩ := hpref (id₂, v) (mapGet_mem subs id₂ v hg)
      have hr₂ : v = "ws_channel:" ++ r := hr
      have hne : v ≠ (ConnectionManager.broadcastMsg m).channel := by
        rw [hr₂]
        exact ws_channel_append_ne_broadcast r
      simp [hne]

theorem broadcast_never_forwarded_witness :
    mapGet ((readStep parseSubscribeJob42 (⟨[], []⟩ : ConnState Unit) "c1"
        (.frame (.text "\x7b\"type\":\"SUBSCRIBE\",\"channel\":\"job:42\"\x7d"))).1).subscriptions
      "c1" = some "ws_channel:job:42" ∧
    writeStep [("c1", "ws_channel:job:42")] "c1"
        (ConnectionManager.broadcastMsg "diagnostic ping") = .notForwarded :=
  ⟨(broadcast_never_forwarded parseSubscribeJob42 (⟨[], []⟩ : ConnState Unit)
      "c1" "\x7b\"type\":\"SUBSCRIBE\",\"channel\":\"job:42\"\x7d"
      { command_type := "SUBSCRIBE", channel := "job:42" } "diagnostic ping"
      rfl rfl).1,
   (broadcast_never_forwarded parseSubscribeJob42 (⟨[], []⟩ : ConnState Unit)
      "c1" "\x7b\"type\":\"SUBSCRIBE\",\"channel\":\"job:42\"\x7d"
      { command_type := "SUBSCRIBE", channel := "job:42" } "diagnostic ping"
      rfl rfl).2.2 [("c1", "ws_channel:job:42")]
     (by intro q hq
         simp at hq
         exact ⟨"job:42", by rw [hq]; decide⟩) "c1"⟩

end Thinknet
